import Mathlib

/-!
Verification of the Helios KWL serial-bus controller (src/main.cc).

The development shallowly embeds the protocol engine of the program:
the frame codec (class `Paket` and `Kwl::send_frame` with its typed
wrappers), the frame-stream handler (`Kwl::got_frame`), the command
sequencer (`Kwl::our_turn`), the cue detection of the main loop, and
the top-level setup/lock control flow of `main`.

Bytes are modelled as `Nat` values, with explicit `% 256` / `% 65536` /
`% 4294967296` where the C code performs fixed-width arithmetic or
implicit integer conversions.  Buffers are `List Nat`.  The host is
little-endian (the program casts raw buffers to `uint16_t`/`uint32_t`).
-/

/-- Read a byte of a buffer; out-of-range reads yield 0 (never exercised
on the in-bounds paths the theorems talk about). -/
def byteAt (l : List Nat) (i : Nat) : Nat := l.getD i 0

/-- Effective size of a paket slice: `Paket::new_paket` caps the given
size to `4 + buf[2]` (header plus declared payload length plus checksum). -/
def paketSize (buf : List Nat) : Nat :=
  if 4 + byteAt buf 2 < buf.length then 4 + byteAt buf 2 else buf.length

/-- A parsed frame slice, mirroring class `Paket`: the raw bytes, the
effective size and the stored checksum-validity flag. -/
structure Paket where
  buf : List Nat
  size : Nat
  isValid : Bool
deriving Repr, DecidableEq

/-- `Paket::is_valid_checksum`: the accumulated byte sum plus one, taken
modulo 256 (`uint8_t` accumulator), must equal the last byte of the slice. -/
def is_valid_checksum (buf : List Nat) (size : Nat) : Bool :=
  (1 + (buf.take (size - 1)).sum) % 256 == byteAt buf (size - 1)

/-- `Paket::new_paket`: slices with fewer than 4 bytes are invalid
without a checksum test; otherwise the size is capped at `4 + buf[2]`
and the checksum verified. -/
def new_paket (buf : List Nat) : Paket :=
  if 4 ≤ buf.length then
    { buf := buf, size := paketSize buf,
      isValid := is_valid_checksum buf (paketSize buf) }
  else
    { buf := buf, size := buf.length, isValid := false }

/-- Frame address byte (`_buf[0]`). -/
def Paket.address (p : Paket) : Nat := byteAt p.buf 0

/-- Frame kind byte (`_buf[1]`): 0=read, 1=write, 5=acknowledge. -/
def Paket.kind (p : Paket) : Nat := byteAt p.buf 1

/-- Declared payload length (`Paket::dsize`, `_buf[2]`). -/
def Paket.dsize (p : Paket) : Nat := byteAt p.buf 2

/-- Variable-index byte (`_buf[3]`). -/
def Paket.varid (p : Paket) : Nat := byteAt p.buf 3

/-- Value bytes of the frame: everything after the 3-byte header and the
variable-index byte, excluding the trailing checksum. -/
def Paket.payload (p : Paket) : List Nat := (p.buf.take (p.size - 1)).drop 4

/-- `Paket::is_start_status`: broadcast frames carry `0xff 0xff` in the
first two bytes (checked without regard to validity in the source, but
only reached once validity holds in `got_frame`). -/
def Paket.is_start_status (p : Paket) : Bool :=
  byteAt p.buf 0 == 0xff && byteAt p.buf 1 == 0xff

/-- `Paket::is_start_addr`: a valid frame addressed to one of the four
known device addresses 0x10..0x13. -/
def Paket.is_start_addr (p : Paket) : Bool :=
  p.isValid && 0x10 ≤ byteAt p.buf 0 && byteAt p.buf 0 ≤ 0x13

/-- `Kwl::send_frame`: given a caller-built buffer, write the length
byte `size - 4` into slot 2, compute the checksum `1 + sum` (mod 256,
`uint8_t` accumulator) over all bytes but the last, store it last and
transmit.  A size below 4 is an encoding error: nothing is sent. -/
def send_frame (buf : List Nat) : List Nat :=
  if buf.length < 4 then []
  else
    let b := buf.set 2 (buf.length - 4)
    b.take (buf.length - 1) ++ [(1 + (b.take (buf.length - 1)).sum) % 256]

/-- `Kwl::send_get_var`: 5-byte read request to device 0x13. -/
def send_get_var (idx : Nat) : List Nat :=
  send_frame [0x13, 0, 1, idx % 256, 0]

/-- `Kwl::send_set_var_8bit`: 6-byte write with a one-byte value. -/
def send_set_var_8bit (idx val : Nat) : List Nat :=
  send_frame [0x13, 1, 2, idx % 256, val % 256, 0]

/-- `Kwl::send_set_var_16bit`: 7-byte write, value little-endian
(`val % 256`, `val / 256` on the `uint16_t` argument). -/
def send_set_var_16bit (idx val : Nat) : List Nat :=
  send_frame [0x13, 1, 3, idx % 256, val % 65536 % 256, val % 65536 / 256, 0]

/-- `Kwl::send_set_var_32bit`: 9-byte write, value little-endian over
four bytes of the `uint32_t` argument. -/
def send_set_var_32bit (idx val : Nat) : List Nat :=
  send_frame [0x13, 1, 5, idx % 256,
              val % 4294967296 % 256,
              val % 4294967296 / 256 % 256,
              val % 4294967296 / 65536 % 256,
              val % 4294967296 / 16777216 % 256, 0]

/-- Generic frame encoding for an (address, kind, variableId, payload)
combination: the caller-built buffer layout used by all senders —
address, kind, a length slot filled in by `send_frame`, the variable
index, the value bytes, and a checksum slot filled in by `send_frame`. -/
def encode_frame (addr kind varid : Nat) (payload : List Nat) : List Nat :=
  send_frame ([addr, kind, 0, varid] ++ payload ++ [0])

/-- Outcome of one `Kwl::got_frame` call: the valid frame slices handed
to `print_paket`, the raw bytes surfaced by the red "ignoring"
diagnostic (if any), whether the loop ended through the unknown-paket
`break` path, and the updated `_first_frame` flag. -/
structure GotFrameResult where
  processed : List (List Nat)
  ignored : Option (List Nat)
  unknownBreak : Bool
  firstFrame : Bool
deriving Repr, DecidableEq

/-- When at least 4 bytes remain, a paket slice consumes at least 4 of
them and no more than what is available. -/
theorem paketSize_bounds (buf : List Nat) (h : 4 ≤ buf.length) :
    4 ≤ paketSize buf ∧ paketSize buf ≤ buf.length := by
  unfold paketSize
  split <;> omega

/-- `Kwl::got_frame`: iterate over the back-to-back frame slices of the
accumulated buffer.  Fewer than 4 remaining bytes end the call; an
invalid slice surfaces its raw bytes (unless it is the very first frame
after startup) and ends the call; a valid slice that is neither a
broadcast nor addressed to 0x10..0x13 breaks out to the unknown-paket
diagnostic; otherwise the slice is processed and the cursor advances
past it. -/
def got_frame (first : Bool) (buf : List Nat) : GotFrameResult :=
  if _h : buf.length < 4 then
    { processed := [], ignored := none, unknownBreak := false, firstFrame := first }
  else
    let p := new_paket buf
    if p.isValid = false then
      { processed := [],
        ignored := if first then none else some (buf.take (paketSize buf)),
        unknownBreak := false, firstFrame := false }
    else if p.is_start_status = false ∧ p.is_start_addr = false then
      { processed := [], ignored := none, unknownBreak := true, firstFrame := false }
    else
      let r := got_frame false (buf.drop (paketSize buf))
      { r with processed := buf.take (paketSize buf) :: r.processed }
termination_by buf.length
decreasing_by
  have hb := paketSize_bounds buf (by omega)
  simp only [List.length_drop]
  omega

/-- Variable id 0x00: calendar monday. -/
def Var_00_calendar_mon : Nat := 0x00
/-- Variable id 0x08: time of day (hour, minutes). -/
def Var_08_time_hour_min : Nat := 0x08
/-- Variable id 0x0f: party enabled (write-only). -/
def Var_0f_party_enabled : Nat := 0x0f
/-- Variable id 0x10: party remaining minutes. -/
def Var_10_party_curr_time : Nat := 0x10
/-- Variable id 0x11: party pre-selected minutes. -/
def Var_11_party_time : Nat := 0x11
/-- Variable id 0x15: hours on. -/
def Var_15_hours_on : Nat := 0x15
/-- Variable id 0x16: fan level 1 voltages. -/
def Var_16_fan_1_voltage : Nat := 0x16
/-- Variable id 0x17: fan level 2 voltages. -/
def Var_17_fan_2_voltage : Nat := 0x17
/-- Variable id 0x18: fan level 3 voltages. -/
def Var_18_fan_3_voltage : Nat := 0x18
/-- Variable id 0x19: fan level 4 voltages. -/
def Var_19_fan_4_voltage : Nat := 0x19
/-- Variable id 0x1e: bypass1 temperature (tenths of a degree). -/
def Var_1e_bypass1_temp : Nat := 0x1e
/-- Variable id 0x35: fan level control word. -/
def Var_35_fan_level : Nat := 0x35
/-- Variable id 0x38: filter change interval (months). -/
def Var_38_change_filter : Nat := 0x38
/-- Variable id 0x3a: temperature sensor bundle. -/
def Var_3a_sensors_temp : Nat := 0x3a
/-- Variable id 0x42: party fan level. -/
def Var_42_party_level : Nat := 0x42
/-- Variable id 0x49: run-on time (seconds). -/
def Var_49_nachlaufzeit : Nat := 0x49
/-- Variable id 0x4f: pre-heating enabled. -/
def Var_4f_preheat_enabled : Nat := 0x4f
/-- Variable id 0x50: pre-heating temperature. -/
def Var_50_preheat_temp : Nat := 0x50
/-- Variable id 0x54: quiet remaining minutes. -/
def Var_54_quiet_curr_time : Nat := 0x54
/-- Variable id 0x55: quiet enabled (write-only). -/
def Var_55_quiet_enabled : Nat := 0x55
/-- Variable id 0x56: quiet pre-selected minutes. -/
def Var_56_quiet_time : Nat := 0x56
/-- Variable id 0x57: quiet fan level. -/
def Var_57_quiet_level : Nat := 0x57
/-- Variable id 0x60: bypass2 temperature. -/
def Var_60_bypass2_temp : Nat := 0x60

/-- The mutable state consulted and updated by `Kwl::our_turn`: the
static turn counter, the pending-intent flags (`opt_*` members and
`initial_temp`), the cached device snapshot fields it reads
(`_fan_level`, `_fan_auto`, `_bypass`, `_party`, `_quiet`) and the
global `_terminate` flag.  `opt_set_*` members are `uint16_t`
(`opt_set_voltage` is `uint32_t`), `opt_get_bypass`, `opt_get_cal`,
`opt_get_voltage` and `opt_get_preheating` are `unsigned`; `_fan_level`
and `_fan_auto` are C `int` with -1 meaning unknown. -/
structure KwlState where
  ourCnt : Nat
  initialTemp : Bool
  optSetTime : Nat
  optSetBypass : Nat
  optSetFan : Nat
  optSetParty : Nat
  optSetQuiet : Nat
  optSetVoltage : Nat
  optGetBypass : Nat
  optGetHoursOn : Bool
  optGetVoltage : Nat
  optGetPartyEnabled : Bool
  optGetPartyTime : Bool
  optGetPartyLevel : Bool
  optGetQuietEnabled : Bool
  optGetQuietTime : Bool
  optGetQuietLevel : Bool
  optGetCal : Nat
  optGetPreheating : Nat
  optGetRunOnTime : Bool
  optGetFilterTime : Bool
  optDoLoop : Bool
  fanLevel : Int
  fanAuto : Int
  bypass : Nat
  party : Nat
  quiet : Nat
  terminate : Bool
deriving Repr, DecidableEq

/-- `Kwl::our_turn`: one granted transmission turn.  Returns the updated
state and the byte sequences written to the bus during this turn (each
element one `send_frame` transmission).  The branch structure is the
strict if/else-if chain of the source: bootstrap, setters, getters,
termination, low-frequency polling. -/
def our_turn (s0 : KwlState) : KwlState × List (List Nat) :=
  let cnt := s0.ourCnt + 1
  let s := { s0 with ourCnt := cnt }
  if cnt < 2 then (s, [])
  else if s.initialTemp then
    ({ s with initialTemp := false }, [send_get_var Var_3a_sensors_temp])
  else if s.optSetTime ≠ 0 then
    ({ s with optSetTime := 0 },
     [send_set_var_16bit Var_08_time_hour_min s.optSetTime])
  else if s.optSetBypass ≠ 0 then
    if s.optSetBypass = 0xffff then
      if s.bypass = 0xffff then (s, [])
      else
        let v := if s.bypass < 200 then 28 else 18
        ({ s with optSetBypass := 0 },
         [send_set_var_16bit Var_1e_bypass1_temp (v * 10)])
    else
      ({ s with optSetBypass := 0 },
       [send_set_var_16bit Var_1e_bypass1_temp (s.optSetBypass * 10)])
  else if s.optSetFan ≠ 0 then
    if s.optSetFan = 0xe000 ∨ s.optSetFan = 0xf000 then
      let change : Int := if s.optSetFan = 0xf000 then 1 else -1
      if s.fanLevel = -1 then (s, [])
      else if (change = -1 ∧ (s.fanLevel < 2 ∨ 4 < s.fanLevel))
              ∨ (change = 1 ∧ (s.fanLevel < 1 ∨ 3 < s.fanLevel)) then
        ({ s with optSetFan := 0 }, [])
      else if s.fanAuto ≠ 0 then
        ({ s with optSetFan := ((s.fanLevel + change) % 65536).toNat,
                  fanLevel := -1, fanAuto := -1 },
         [send_set_var_16bit Var_35_fan_level 0x00aa])
      else
        ({ s with optSetFan := 0, fanLevel := -1, fanAuto := -1 },
         [send_set_var_16bit Var_35_fan_level
            ((0xbb00 + s.fanLevel + change) % 65536).toNat])
    else if s.optSetFan = 0xaa then
      ({ s with optSetFan := 0 }, [send_set_var_16bit Var_35_fan_level 0x01aa])
    else if Nat.land s.optSetFan 0x100 ≠ 0 then
      ({ s with optSetFan := Nat.land s.optSetFan 0xfeff },
       [send_set_var_16bit Var_35_fan_level 0x00aa])
    else
      ({ s with optSetFan := 0 },
       [send_set_var_16bit Var_35_fan_level (0xbb00 + s.optSetFan)])
  else if s.optSetParty ≠ 0 then
    if s.optSetParty = 0xaa00 then
      ({ s with optSetParty := 0 }, [send_set_var_8bit Var_0f_party_enabled 0])
    else if s.optSetParty = 0xaa01 then
      ({ s with optSetParty := 0 }, [send_set_var_8bit Var_0f_party_enabled 1])
    else
      ({ s with optSetParty := 0xaa01 },
       [send_set_var_16bit Var_11_party_time s.optSetParty])
  else if s.optSetQuiet ≠ 0 then
    if s.optSetQuiet = 0xaa00 then
      ({ s with optSetQuiet := 0 }, [send_set_var_8bit Var_55_quiet_enabled 0])
    else if s.optSetQuiet = 0xaa01 then
      ({ s with optSetQuiet := 0 }, [send_set_var_8bit Var_55_quiet_enabled 1])
    else
      ({ s with optSetQuiet := 0xaa01 },
       [send_set_var_16bit Var_56_quiet_time s.optSetQuiet])
  else if s.optSetVoltage ≠ 0 then
    ({ s with optSetVoltage := 0 },
     [send_set_var_32bit (Var_16_fan_1_voltage - 1 + Nat.land s.optSetVoltage 0xf)
        (Nat.lor (s.optSetVoltage >>> 16) (Nat.land s.optSetVoltage 0xffff0000))])
  else if s.optGetBypass = 2 then
    ({ s with optGetBypass := s.optGetBypass - 1 }, [send_get_var Var_60_bypass2_temp])
  else if s.optGetBypass = 1 then
    ({ s with optGetBypass := s.optGetBypass - 1 }, [send_get_var Var_1e_bypass1_temp])
  else if s.optGetHoursOn then
    ({ s with optGetHoursOn := false }, [send_get_var Var_15_hours_on])
  else if s.optGetVoltage ≠ 0 then
    if s.optGetVoltage < 5 then
      ({ s with optGetVoltage := s.optGetVoltage - 1 },
       [send_get_var (Var_19_fan_4_voltage + 1 - s.optGetVoltage)])
    else
      ({ s with optGetVoltage := s.optGetVoltage - 1 }, [])
  else if s.optGetPartyEnabled then
    ({ s with optGetPartyEnabled := false }, [send_get_var Var_10_party_curr_time])
  else if s.optGetPartyTime then
    ({ s with optGetPartyTime := false }, [send_get_var Var_11_party_time])
  else if s.optGetPartyLevel then
    ({ s with optGetPartyLevel := false }, [send_get_var Var_42_party_level])
  else if s.optGetQuietEnabled then
    ({ s with optGetQuietEnabled := false }, [send_get_var Var_54_quiet_curr_time])
  else if s.optGetQuietTime then
    ({ s with optGetQuietTime := false }, [send_get_var Var_56_quiet_time])
  else if s.optGetQuietLevel then
    ({ s with optGetQuietLevel := false }, [send_get_var Var_57_quiet_level])
  else if s.optGetCal ≠ 0 then
    ({ s with optGetCal := 0 },
     [send_get_var (Var_00_calendar_mon + s.optGetCal - 1)])
  else if s.optGetPreheating ≠ 0 then
    if s.optGetPreheating = 2 then
      ({ s with optGetPreheating := s.optGetPreheating - 1 },
       [send_get_var Var_4f_preheat_enabled])
    else if s.optGetPreheating = 1 then
      ({ s with optGetPreheating := s.optGetPreheating - 1 },
       [send_get_var Var_50_preheat_temp])
    else
      ({ s with optGetPreheating := s.optGetPreheating - 1 }, [])
  else if s.optGetRunOnTime then
    ({ s with optGetRunOnTime := false }, [send_get_var Var_49_nachlaufzeit])
  else if s.optGetFilterTime then
    ({ s with optGetFilterTime := false }, [send_get_var Var_38_change_filter])
  else if s.optDoLoop = false then
    ({ s with terminate := true }, [])
  else if cnt % 4 = 3 then
    (s, [send_get_var Var_3a_sensors_temp])
  else if s.party ≠ 0 ∧ cnt % 8 = 2 then
    (s, [send_get_var Var_10_party_curr_time])
  else if s.quiet ≠ 0 ∧ cnt % 8 = 2 then
    (s, [send_get_var Var_54_quiet_curr_time])
  else (s, [])

/-- Little-endian `uint32_t` load of the first four buffer bytes
(`*(uint32_t *)buf` on the x86 host). -/
def le32 (l : List Nat) : Nat :=
  byteAt l 0 + 256 * byteAt l 1 + 65536 * byteAt l 2 + 16777216 * byteAt l 3

/-- Receive-side state of the main loop: the bytes accumulated since the
last idle-gap boundary (`buf`/`idx`) and the number of `our_turn`
invocations so far. -/
structure LoopState where
  buf : List Nat
  turns : Nat
deriving Repr, DecidableEq

/-- One iteration of the receive path of `main`: `gap` tells whether at
least 25 ms passed before byte `c` arrived (then the accumulated bytes
are handed to `got_frame` and the index reset); a full 128-byte buffer
is discarded together with the current byte; otherwise the byte is
appended, and when exactly 4 bytes have accumulated and they read
`0x14000013` as a little-endian `uint32_t` (bytes `13 00 00 14`),
`our_turn` is invoked. -/
def main_loop_step (s : LoopState) (gap : Bool) (c : Nat) : LoopState :=
  let s := if gap then { s with buf := [] } else s
  if 128 ≤ s.buf.length then { s with buf := [] }
  else
    let buf := s.buf ++ [c % 256]
    if buf.length = 4 ∧ le32 buf = 0x14000013 then
      { buf := buf, turns := s.turns + 1 }
    else
      { s with buf := buf }

/-- Run the receive path of `main` over a sequence of byte events
(gap flag, byte value). -/
def run_loop (s : LoopState) (evs : List (Bool × Nat)) : LoopState :=
  evs.foldl (fun s e => main_loop_step s e.1 e.2) s

/-- Setup control flow of `main` (lines 1367..1458): given the outcomes
of `uart_open`, the lock-file creation, `uart_setup` and the value
returned by `scan_options`, yield the process exit status and whether
the serial main loop is entered.  `retval` starts at 0 and is only ever
assigned the `scan_options` result. -/
def main_control (uartOpenOk lockOk uartSetupOk : Bool) (scanRet : Nat) :
    Nat × Bool :=
  if uartOpenOk = false then (1, false)
  else if lockOk then
    if uartSetupOk then
      if scanRet = 0 then (0, true) else (scanRet, false)
    else (0, false)
  else (0, false)

/-- A `KwlState` with every pending intent cleared, the turn counter
past the bootstrap, loop mode on and the snapshot unknown; concrete
scenarios are built from it by field updates. -/
def baseState : KwlState where
  ourCnt := 4
  initialTemp := false
  optSetTime := 0
  optSetBypass := 0
  optSetFan := 0
  optSetParty := 0
  optSetQuiet := 0
  optSetVoltage := 0
  optGetBypass := 0
  optGetHoursOn := false
  optGetVoltage := 0
  optGetPartyEnabled := false
  optGetPartyTime := false
  optGetPartyLevel := false
  optGetQuietEnabled := false
  optGetQuietTime := false
  optGetQuietLevel := false
  optGetCal := 0
  optGetPreheating := 0
  optGetRunOnTime := false
  optGetFilterTime := false
  optDoLoop := true
  fanLevel := -1
  fanAuto := -1
  bypass := 0xffff
  party := 0
  quiet := 0
  terminate := false

/-- `send_frame` on the caller-built layout: the length slot receives
`payload.length + 1` (value bytes plus the variable-index byte) and the
checksum is appended after the body. -/
theorem encode_frame_eq (a k v : Nat) (p : List Nat) :
    encode_frame a k v p =
      ([a, k, p.length + 1, v] ++ p)
        ++ [(1 + ([a, k, p.length + 1, v] ++ p).sum) % 256] := by
  unfold encode_frame send_frame
  have hlen : ([a, k, 0, v] ++ p ++ [0]).length = p.length + 5 := by
    simp
  rw [hlen]
  have hnot : ¬ (p.length + 5 < 4) := by omega
  rw [if_neg hnot]
  have hset : ([a, k, 0, v] ++ p ++ [0]).set 2 (p.length + 5 - 4)
      = [a, k, p.length + 1, v] ++ p ++ [0] := by
    simp [List.set]
  rw [hset]
  have htake : ([a, k, p.length + 1, v] ++ p ++ [0]).take (p.length + 5 - 1)
      = [a, k, p.length + 1, v] ++ p := by
    rw [show [a, k, p.length + 1, v] ++ p ++ [0] = ([a, k, p.length + 1, v] ++ p) ++ [0] by simp]
    rw [show p.length + 5 - 1 = ([a, k, p.length + 1, v] ++ p).length by simp]
    rw [List.take_left]
  simp only [htake]

/-- C4: encode/decode round trip.  For every valid combination of
address, kind, variable id and payload bytes, encoding (length byte
`size - 4`, checksum `(1 + sum) mod 256` appended last) and re-decoding
with `Paket::new_paket` yields a checksum-valid frame with the same
address, kind, variable id and payload. -/
theorem checksum_roundtrip (a k v : Nat) (p : List Nat)
    (ha : a < 256) (hk : k < 256) (hv : v < 256)
    (hp : ∀ b ∈ p, b < 256) (hplen : p.length ≤ 250) :
    ((new_paket (encode_frame a k v p)).isValid = true)
    ∧ (new_paket (encode_frame a k v p)).address = a
    ∧ (new_paket (encode_frame a k v p)).kind = k
    ∧ (new_paket (encode_frame a k v p)).varid = v
    ∧ (new_paket (encode_frame a k v p)).payload = p := by
  rw [encode_frame_eq]
  set body : List Nat := [a, k, p.length + 1, v] ++ p with hbody
  set chk : Nat := (1 + body.sum) % 256 with hchk
  have hblen : body.length = p.length + 4 := by simp [hbody]
  have hlen : (body ++ [chk]).length = p.length + 5 := by simp [hblen]
  have hb2 : byteAt (body ++ [chk]) 2 = p.length + 1 := by
    simp [byteAt, hbody]
  have hps : paketSize (body ++ [chk]) = p.length + 5 := by
    unfold paketSize
    rw [hb2, hlen]
    split <;> omega
  have htake : (body ++ [chk]).take (p.length + 5 - 1) = body := by
    rw [show p.length + 5 - 1 = body.length by omega]
    exact List.take_left body [chk]
  have hlast : byteAt (body ++ [chk]) (p.length + 5 - 1) = chk := by
    rw [show p.length + 5 - 1 = body.length by omega]
    simp [byteAt, List.getD_append_right]
  have hvalid : is_valid_checksum (body ++ [chk]) (p.length + 5) = true := by
    unfold is_valid_checksum
    rw [htake, hlast]
    simp [hchk]
  have hnp : new_paket (body ++ [chk])
      = { buf := body ++ [chk], size := p.length + 5, isValid := true } := by
    unfold new_paket
    rw [if_pos (by omega : 4 ≤ (body ++ [chk]).length)]
    rw [hps, hvalid]
  rw [hnp]
  refine ⟨rfl, ?_, ?_, ?_, ?_⟩
  · simp [Paket.address, byteAt, hbody]
  · simp [Paket.kind, byteAt, hbody]
  · simp [Paket.varid, byteAt, hbody]
  · simp only [Paket.payload]
    rw [htake]
    simp [hbody]

/-- Witness for C4 at a concrete frame: the bypass1-temperature write
used by the sequencer (address 0x13, kind write, payload `0x18 0x01`,
i.e. 280 tenths). -/
theorem checksum_roundtrip_witness :
    ((new_paket (encode_frame 0x13 1 0x1e [0x18, 0x01])).isValid = true)
    ∧ (new_paket (encode_frame 0x13 1 0x1e [0x18, 0x01])).address = 0x13
    ∧ (new_paket (encode_frame 0x13 1 0x1e [0x18, 0x01])).kind = 1
    ∧ (new_paket (encode_frame 0x13 1 0x1e [0x18, 0x01])).varid = 0x1e
    ∧ (new_paket (encode_frame 0x13 1 0x1e [0x18, 0x01])).payload = [0x18, 0x01] :=
  checksum_roundtrip 0x13 1 0x1e [0x18, 0x01] (by decide) (by decide)
    (by decide) (by decide) (by decide)

/-- C5: on a granted turn with a pending bypass toggle (`opt_set_bypass
== 0xffff`) and no higher-priority branch pending, an unknown bypass
reading (0xffff) emits nothing and leaves the toggle armed for the next
turn; a reading below 200 tenths emits a 16-bit write of 280 to the
bypass1 temperature variable and clears the toggle; a known reading of
200 or above emits a write of 180 and clears the toggle. -/
theorem bypass_toggle_resolution (s : KwlState)
    (hcnt : 1 ≤ s.ourCnt) (hit : s.initialTemp = false)
    (htime : s.optSetTime = 0) (hby : s.optSetBypass = 0xffff) :
    (s.bypass = 0xffff →
       (our_turn s).2 = [] ∧ (our_turn s).1.optSetBypass = 0xffff)
    ∧ (s.bypass < 200 →
       (our_turn s).2 = [send_set_var_16bit Var_1e_bypass1_temp 280]
         ∧ (our_turn s).1.optSetBypass = 0)
    ∧ (200 ≤ s.bypass → s.bypass ≠ 0xffff →
       (our_turn s).2 = [send_set_var_16bit Var_1e_bypass1_temp 180]
         ∧ (our_turn s).1.optSetBypass = 0) := by
  have h2 : ¬ (s.ourCnt + 1 < 2) := by omega
  refine ⟨fun hu => ?_, fun hlo => ?_, fun hhi hne => ?_⟩
  · unfold our_turn
    simp [h2, hit, htime, hby, hu]
  · have hne : ¬ (s.bypass = 0xffff) := by omega
    unfold our_turn
    simp [h2, hit, htime, hby, hne, hlo]
  · have hge : ¬ (s.bypass < 200) := by omega
    unfold our_turn
    simp [h2, hit, htime, hby, hne, hge]

/-- Witness for C5 at three concrete states: unknown reading defers,
reading 195 resolves to a write of 280, reading 205 to a write of 180. -/
theorem bypass_toggle_resolution_witness :
    ((our_turn { baseState with optSetBypass := 0xffff }).2 = [])
    ∧ (our_turn { baseState with optSetBypass := 0xffff, bypass := 195 }).2
        = [send_set_var_16bit Var_1e_bypass1_temp 280]
    ∧ (our_turn { baseState with optSetBypass := 0xffff, bypass := 205 }).2
        = [send_set_var_16bit Var_1e_bypass1_temp 180] :=
  ⟨((bypass_toggle_resolution _ (by decide) (by decide) (by decide) (by decide)).1
      (by decide)).1,
   ((bypass_toggle_resolution _ (by decide) (by decide) (by decide) (by decide)).2.1
      (by decide)).1,
   ((bypass_toggle_resolution _ (by decide) (by decide) (by decide) (by decide)).2.2
      (by decide) (by decide)).1⟩

/-- If both branches of a conditional are below a bound, so is the
conditional. -/
theorem kwl_ite_le_one {c : Prop} [Decidable c] {a b : Nat}
    (ha : a ≤ 1) (hb : b ≤ 1) : (if c then a else b) ≤ 1 := by
  split <;> assumption

set_option maxHeartbeats 1000000 in
/-- C7: for every sequencer state, one invocation of the turn handler
sends at most one outgoing frame on the bus. -/
theorem our_turn_at_most_one_send (s : KwlState) :
    ((our_turn s).2).length ≤ 1 := by
  unfold our_turn
  dsimp only
  simp only [apply_ite (Prod.snd : KwlState × List (List Nat) → List (List Nat))]
  simp only [apply_ite (List.length : List (List Nat) → Nat)]
  simp only [List.length_nil, List.length_cons]
  repeat' apply kwl_ite_le_one
  all_goals omega

/-- C2 counterexample: with the four per-level voltage reads pending
(`opt_get_voltage == 4`), the first granted turn requests the fan 1
voltage variable (0x16), not the fan 4 voltage variable (0x19) the
claim's descending order would require. -/
theorem voltage_read_order_counterexample :
    (our_turn { baseState with optGetVoltage := 4 }).2
        = [send_get_var Var_16_fan_1_voltage]
    ∧ (our_turn { baseState with optGetVoltage := 4 }).2
        ≠ [send_get_var Var_19_fan_4_voltage] := by
  decide

/-- C2 (amended): in the pending-read phase, the four per-level
fan-voltage reads are issued on four successive granted turns in
ascending level order — fan 1 voltage (0x16) first, fan 4 voltage
(0x19) last. -/
theorem voltage_reads_ascending (s : KwlState)
    (hcnt : 1 ≤ s.ourCnt) (hit : s.initialTemp = false)
    (hs1 : s.optSetTime = 0) (hs2 : s.optSetBypass = 0) (hs3 : s.optSetFan = 0)
    (hs4 : s.optSetParty = 0) (hs5 : s.optSetQuiet = 0) (hs6 : s.optSetVoltage = 0)
    (hg1 : s.optGetBypass = 0) (hg2 : s.optGetHoursOn = false)
    (hgv : s.optGetVoltage = 4) :
    (our_turn s).2 = [send_get_var Var_16_fan_1_voltage]
    ∧ (our_turn (our_turn s).1).2 = [send_get_var Var_17_fan_2_voltage]
    ∧ (our_turn (our_turn (our_turn s).1).1).2 = [send_get_var Var_18_fan_3_voltage]
    ∧ (our_turn (our_turn (our_turn (our_turn s).1).1).1).2
        = [send_get_var Var_19_fan_4_voltage] := by
  have h2 : ¬ (s.ourCnt + 1 < 2) := by omega
  have e1s : (our_turn s).1
      = { s with ourCnt := s.ourCnt + 1, optGetVoltage := 3 } := by
    unfold our_turn
    simp [h2, hit, hs1, hs2, hs3, hs4, hs5, hs6, hg1, hg2, hgv]
  have e1 : (our_turn s).2 = [send_get_var Var_16_fan_1_voltage] := by
    unfold our_turn
    simp [h2, hit, hs1, hs2, hs3, hs4, hs5, hs6, hg1, hg2, hgv,
          Var_19_fan_4_voltage, Var_16_fan_1_voltage]
  have h3 : ¬ (s.ourCnt + 1 + 1 < 2) := by omega
  have e2s : (our_turn (our_turn s).1).1
      = { s with ourCnt := s.ourCnt + 2, optGetVoltage := 2 } := by
    rw [e1s]
    unfold our_turn
    simp [h3, hit, hs1, hs2, hs3, hs4, hs5, hs6, hg1, hg2]
  have e2 : (our_turn (our_turn s).1).2 = [send_get_var Var_17_fan_2_voltage] := by
    rw [e1s]
    unfold our_turn
    simp [h3, hit, hs1, hs2, hs3, hs4, hs5, hs6, hg1, hg2,
          Var_19_fan_4_voltage, Var_17_fan_2_voltage]
  have h4 : ¬ (s.ourCnt + 2 + 1 < 2) := by omega
  have e3s : (our_turn (our_turn (our_turn s).1).1).1
      = { s with ourCnt := s.ourCnt + 3, optGetVoltage := 1 } := by
    rw [e2s]
    unfold our_turn
    simp [h4, hit, hs1, hs2, hs3, hs4, hs5, hs6, hg1, hg2]
  have e3 : (our_turn (our_turn (our_turn s).1).1).2
      = [send_get_var Var_18_fan_3_voltage] := by
    rw [e2s]
    unfold our_turn
    simp [h4, hit, hs1, hs2, hs3, hs4, hs5, hs6, hg1, hg2,
          Var_19_fan_4_voltage, Var_18_fan_3_voltage]
  have h5 : ¬ (s.ourCnt + 3 + 1 < 2) := by omega
  have e4 : (our_turn (our_turn (our_turn (our_turn s).1).1).1).2
      = [send_get_var Var_19_fan_4_voltage] := by
    rw [e3s]
    unfold our_turn
    simp [h5, hit, hs1, hs2, hs3, hs4, hs5, hs6, hg1, hg2,
          Var_19_fan_4_voltage]
  exact ⟨e1, e2, e3, e4⟩

/-- Witness for C2 (amended) at a concrete state with the four voltage
reads pending. -/
theorem voltage_reads_ascending_witness :
    (our_turn { baseState with optGetVoltage := 4 }).2
        = [send_get_var Var_16_fan_1_voltage]
    ∧ (our_turn (our_turn { baseState with optGetVoltage := 4 }).1).2
        = [send_get_var Var_17_fan_2_voltage] :=
  ⟨(voltage_reads_ascending _ (by decide) (by decide) (by decide) (by decide)
      (by decide) (by decide) (by decide) (by decide) (by decide) (by decide)
      (by decide)).1,
   (voltage_reads_ascending _ (by decide) (by decide) (by decide) (by decide)
      (by decide) (by decide) (by decide) (by decide) (by decide) (by decide)
      (by decide)).2.1⟩

/-- C6: a pending fan "down" request with known level 2: in manual mode
(`_fan_auto == 0`) the turn emits the single manual level-1 write
(control word `0xbb01`) and clears the request; in auto mode it first
emits the disable-auto write (control word `0x00aa`), re-arms the
request with the target level 1, and the following granted turn emits
the manual level-1 write.  In both cases the cached fan level and auto
flag are reset to unknown (-1) on the turn the first write goes out. -/
theorem fan_step_two_phase (s : KwlState)
    (hcnt : 1 ≤ s.ourCnt) (hit : s.initialTemp = false)
    (htime : s.optSetTime = 0) (hby : s.optSetBypass = 0)
    (hfan : s.optSetFan = 0xe000) (hlev : s.fanLevel = 2) :
    (s.fanAuto = 0 →
       (our_turn s).2 = [send_set_var_16bit Var_35_fan_level 0xbb01]
       ∧ (our_turn s).1.optSetFan = 0
       ∧ (our_turn s).1.fanLevel = -1 ∧ (our_turn s).1.fanAuto = -1)
    ∧ (s.fanAuto = 1 →
       (our_turn s).2 = [send_set_var_16bit Var_35_fan_level 0x00aa]
       ∧ (our_turn s).1.optSetFan = 1
       ∧ (our_turn s).1.fanLevel = -1 ∧ (our_turn s).1.fanAuto = -1
       ∧ (our_turn (our_turn s).1).2 = [send_set_var_16bit Var_35_fan_level 0xbb01]
       ∧ (our_turn (our_turn s).1).1.optSetFan = 0) := by
  have h2 : ¬ (s.ourCnt + 1 < 2) := by omega
  constructor
  · intro hauto
    unfold our_turn
    simp [h2, hit, htime, hby, hfan, hlev, hauto]
  · intro hauto
    have h1 : (our_turn s).1
        = { s with ourCnt := s.ourCnt + 1, optSetFan := 1,
                   fanLevel := -1, fanAuto := -1 } := by
      unfold our_turn
      simp [h2, hit, htime, hby, hfan, hlev, hauto]
    have hsends : (our_turn s).2 = [send_set_var_16bit Var_35_fan_level 0x00aa] := by
      unfold our_turn
      simp [h2, hit, htime, hby, hfan, hlev, hauto]
    have h3 : ¬ (s.ourCnt + 1 + 1 < 2) := by omega
    have hland : Nat.land 1 256 = 0 := by decide
    refine ⟨hsends, by rw [h1], by rw [h1], by rw [h1], ?_, ?_⟩
    · rw [h1]
      unfold our_turn
      simp [hit, htime, hby, h3, hland]
    · rw [h1]
      unfold our_turn
      simp [hit, htime, hby, h3, hland]

/-- Witness for C6 at concrete states: manual mode sends the level-1
write at once; auto mode sends disable-auto first and the level-1 write
on the following turn. -/
theorem fan_step_two_phase_witness :
    ((our_turn { baseState with optSetFan := 0xe000, fanLevel := 2, fanAuto := 0 }).2
        = [send_set_var_16bit Var_35_fan_level 0xbb01])
    ∧ (our_turn { baseState with optSetFan := 0xe000, fanLevel := 2, fanAuto := 1 }).2
        = [send_set_var_16bit Var_35_fan_level 0x00aa]
    ∧ (our_turn
         (our_turn
           { baseState with
             optSetFan := 0xe000, fanLevel := 2, fanAuto := 1 }).1).2
        = [send_set_var_16bit Var_35_fan_level 0xbb01] :=
  ⟨((fan_step_two_phase _ (by decide) (by decide) (by decide) (by decide)
       (by decide) (by decide)).1 (by decide)).1,
   ((fan_step_two_phase _ (by decide) (by decide) (by decide) (by decide)
       (by decide) (by decide)).2 (by decide)).1,
   ((fan_step_two_phase _ (by decide) (by decide) (by decide) (by decide)
       (by decide) (by decide)).2 (by decide)).2.2.2.2.1⟩

/-- C8: a pending fan "down" request with a known fan level outside
[2,4], or a pending "up" request with a known level outside [1,3],
emits no frame and clears the pending request (no retry; the source
branch contains no diagnostic output). -/
theorem fan_step_out_of_range (s : KwlState)
    (hcnt : 1 ≤ s.ourCnt) (hit : s.initialTemp = false)
    (htime : s.optSetTime = 0) (hby : s.optSetBypass = 0)
    (hkn : s.fanLevel ≠ -1) :
    (s.optSetFan = 0xe000 → (s.fanLevel < 2 ∨ 4 < s.fanLevel) →
       (our_turn s).2 = [] ∧ (our_turn s).1.optSetFan = 0)
    ∧ (s.optSetFan = 0xf000 → (s.fanLevel < 1 ∨ 3 < s.fanLevel) →
       (our_turn s).2 = [] ∧ (our_turn s).1.optSetFan = 0) := by
  have h2 : ¬ (s.ourCnt + 1 < 2) := by omega
  constructor
  · intro hfan hrange
    unfold our_turn
    simp [h2, hit, htime, hby, hfan, hkn, hrange]
  · intro hfan hrange
    unfold our_turn
    simp [h2, hit, htime, hby, hfan, hkn, hrange]

/-- Witness for C8: a "down" request at known level 1 and an "up"
request at known level 4 are both dropped silently. -/
theorem fan_step_out_of_range_witness :
    ((our_turn { baseState with optSetFan := 0xe000, fanLevel := 1, fanAuto := 0 }).2 = []
     ∧ (our_turn { baseState with optSetFan := 0xe000, fanLevel := 1, fanAuto := 0 }).1.optSetFan = 0)
    ∧ ((our_turn { baseState with optSetFan := 0xf000, fanLevel := 4, fanAuto := 0 }).2 = []
     ∧ (our_turn { baseState with optSetFan := 0xf000, fanLevel := 4, fanAuto := 0 }).1.optSetFan = 0) :=
  ⟨(fan_step_out_of_range _ (by decide) (by decide) (by decide) (by decide)
      (by decide)).1 (by decide) (by decide),
   (fan_step_out_of_range _ (by decide) (by decide) (by decide) (by decide)
      (by decide)).2 (by decide) (by decide)⟩

/-- C10: on a low-frequency background-polling turn (turn count 2 mod 8,
no pending intents, loop mode on), an active party mode (nonzero
remaining minutes) makes the turn request the party remaining time and
nothing else; the quiet remaining-time request is issued on such turns
only when party mode is inactive and quiet mode active. -/
theorem low_freq_party_before_quiet (s : KwlState)
    (hcnt : (s.ourCnt + 1) % 8 = 2)
    (hit : s.initialTemp = false)
    (hs1 : s.optSetTime = 0) (hs2 : s.optSetBypass = 0) (hs3 : s.optSetFan = 0)
    (hs4 : s.optSetParty = 0) (hs5 : s.optSetQuiet = 0) (hs6 : s.optSetVoltage = 0)
    (hg1 : s.optGetBypass = 0) (hg2 : s.optGetHoursOn = false)
    (hg3 : s.optGetVoltage = 0) (hg4 : s.optGetPartyEnabled = false)
    (hg5 : s.optGetPartyTime = false) (hg6 : s.optGetPartyLevel = false)
    (hg7 : s.optGetQuietEnabled = false) (hg8 : s.optGetQuietTime = false)
    (hg9 : s.optGetQuietLevel = false) (hg10 : s.optGetCal = 0)
    (hg11 : s.optGetPreheating = 0) (hg12 : s.optGetRunOnTime = false)
    (hg13 : s.optGetFilterTime = false) (hloop : s.optDoLoop = true) :
    (s.party ≠ 0 → (our_turn s).2 = [send_get_var Var_10_party_curr_time])
    ∧ (s.party = 0 → s.quiet ≠ 0 →
       (our_turn s).2 = [send_get_var Var_54_quiet_curr_time]) := by
  have h2 : ¬ (s.ourCnt + 1 < 2) := by omega
  have h4 : ¬ ((s.ourCnt + 1) % 4 = 3) := by omega
  constructor
  · intro hp
    unfold our_turn
    simp [h2, h4, hcnt, hit, hs1, hs2, hs3, hs4, hs5, hs6, hg1, hg2, hg3,
          hg4, hg5, hg6, hg7, hg8, hg9, hg10, hg11, hg12, hg13, hloop, hp]
  · intro hp hq
    unfold our_turn
    simp [h2, h4, hcnt, hit, hs1, hs2, hs3, hs4, hs5, hs6, hg1, hg2, hg3,
          hg4, hg5, hg6, hg7, hg8, hg9, hg10, hg11, hg12, hg13, hloop, hp, hq]

/-- Witness for C10: on turn 10 (2 mod 8) with both party and quiet
active, only the party remaining time is requested; with party
inactive, the quiet remaining time is requested. -/
theorem low_freq_party_before_quiet_witness :
    ((our_turn { baseState with ourCnt := 9, party := 30, quiet := 20 }).2
        = [send_get_var Var_10_party_curr_time])
    ∧ (our_turn { baseState with ourCnt := 9, party := 0, quiet := 20 }).2
        = [send_get_var Var_54_quiet_curr_time] :=
  ⟨(low_freq_party_before_quiet _ (by decide) (by decide) (by decide) (by decide)
      (by decide) (by decide) (by decide) (by decide) (by decide) (by decide)
      (by decide) (by decide) (by decide) (by decide) (by decide) (by decide)
      (by decide) (by decide) (by decide) (by decide) (by decide)
      (by decide)).1 (by decide),
   (low_freq_party_before_quiet _ (by decide) (by decide) (by decide) (by decide)
      (by decide) (by decide) (by decide) (by decide) (by decide) (by decide)
      (by decide) (by decide) (by decide) (by decide) (by decide) (by decide)
      (by decide) (by decide) (by decide) (by decide) (by decide)
      (by decide)).2 (by decide) (by decide)⟩

/-- Once at least 4 bytes have accumulated since the last idle-gap
boundary, further gap-free bytes never invoke `our_turn` again (the cue
check fires only at exactly 4 accumulated bytes), as long as the
128-byte receive buffer is not exhausted. -/
theorem run_loop_no_gap_no_extra_turn (rest : List Nat) :
    ∀ s : LoopState, 4 ≤ s.buf.length → s.buf.length + rest.length ≤ 128 →
      (run_loop s (rest.map (fun c => (false, c)))).turns = s.turns := by
  induction rest with
  | nil => intro s _ _; rfl
  | cons c cs ih =>
    intro s h4 hcap
    have hstep : main_loop_step s false c
        = { s with buf := s.buf ++ [c % 256] } := by
      unfold main_loop_step
      simp only [Bool.false_eq_true, if_false]
      have hov : ¬ (128 ≤ s.buf.length) := by
        simp at hcap
        omega
      rw [if_neg hov]
      have hne : ¬ ((s.buf ++ [c % 256]).length = 4
          ∧ le32 (s.buf ++ [c % 256]) = 0x14000013) := by
        intro hand
        have := hand.1
        simp at this
        omega
      rw [if_neg hne]
    simp only [List.map_cons, run_loop, List.foldl_cons]
    have := ih (main_loop_step s false c)
    rw [hstep] at this ⊢
    simp only [run_loop] at this
    apply this
    · simp
      omega
    · simp at hcap ⊢
      omega

/-- Folding the receive loop distributes over list concatenation. -/
theorem run_loop_append (s : LoopState) (l1 l2 : List (Bool × Nat)) :
    run_loop s (l1 ++ l2) = run_loop (run_loop s l1) l2 := by
  simp [run_loop, List.foldl_append]

/-- C1 counterexample: feeding the claimed cue bytes
`13 00 01 14 56` (the external-contact read request) right after an
idle-gap boundary invokes `our_turn` zero times, not once: the cue
comparison in `main` is against the little-endian word `0x14000013`,
i.e. the byte sequence `13 00 00 14` (the ping to device 0x13, whose
fourth byte is its checksum), which has a zero in the length position
where the claimed sequence carries `01`. -/
theorem cue_bytes_claim_counterexample :
    (run_loop ⟨[], 0⟩
       [(false, 0x13), (false, 0x00), (false, 0x01), (false, 0x14),
        (false, 0x56)]).turns = 0
    ∧ (run_loop ⟨[], 0⟩
       [(false, 0x13), (false, 0x00), (false, 0x01), (false, 0x14),
        (false, 0x56)]).turns ≠ 1 := by
  decide

/-- C1 (amended): when the bytes `13 00 00 14` (the device-0x13 ping,
matching the hardcoded little-endian cue word `0x14000013`) arrive as
the first four bytes after an idle-gap boundary, `our_turn` is invoked
exactly once at the fourth byte — subsequent gap-free bytes (up to the
128-byte buffer reset) trigger no further invocation, and trailing
silence adds none either since invocation happens at byte arrival. -/
theorem cue_ping_fires_turn_once (rest : List Nat)
    (hr : rest.length ≤ 124) :
    (run_loop ⟨[], 0⟩
       ([(false, 0x13), (false, 0x00), (false, 0x00), (false, 0x14)]
         ++ rest.map (fun c => (false, c)))).turns = 1 := by
  have hpre : run_loop ⟨[], 0⟩
      [(false, 0x13), (false, 0x00), (false, 0x00), (false, 0x14)]
      = ⟨[0x13, 0x00, 0x00, 0x14], 1⟩ := by decide
  rw [run_loop_append, hpre]
  apply run_loop_no_gap_no_extra_turn
  · show 4 ≤ 4
    omega
  · show 4 + rest.length ≤ 128
    omega

/-- Witness for C1 (amended) with two arbitrary trailing bytes. -/
theorem cue_ping_fires_turn_once_witness :
    (run_loop ⟨[], 0⟩
       ([(false, 0x13), (false, 0x00), (false, 0x00), (false, 0x14)]
         ++ [0xab, 0x01].map (fun c => (false, c)))).turns = 1 :=
  cue_ping_fires_turn_once [0xab, 0x01] (by decide)

/-- C3 counterexample: with the serial device opened but the lock file
already held by another instance, `main` skips the loop but returns the
untouched `retval` value 0, not 1 as claimed. -/
theorem lock_failure_exit_counterexample :
    main_control true false true 0 = (0, false)
    ∧ (main_control true false true 0).1 ≠ 1 := by
  decide

/-- C3 (amended): when the mutual-exclusion lock cannot be acquired
(after a successful `uart_open`), the process never enters the main
loop but exits with status 0 — `retval` is initialised to 0 and only
ever assigned inside the lock-held branch. -/
theorem lock_failure_exits_zero (uartSetupOk : Bool) (scanRet : Nat) :
    main_control true false uartSetupOk scanRet = (0, false) := rfl

/-- Witness for C3 (amended) at concrete argument values. -/
theorem lock_failure_exits_zero_witness :
    main_control true false true 7 = (0, false) :=
  lock_failure_exits_zero true 7

/-- Witness for C7 at a concrete state. -/
theorem our_turn_at_most_one_send_witness :
    ((our_turn baseState).2).length ≤ 1 :=
  our_turn_at_most_one_send baseState

/-- C9: (1) whenever the slice at the front of the remaining buffer
fails checksum validation, `got_frame` stops — nothing further in the
buffer is decoded — and surfaces the invalid slice's raw bytes for the
"ignoring" diagnostic, except for the very first frame after startup,
which only clears the `_first_frame` flag; (2) a leading valid slice
that is a broadcast or device-addressed frame is processed and the rest
of the buffer handled independently, so a buffer with an invalid frame
in mid-position decodes exactly the frames before it. -/
theorem invalid_frame_stops_processing (first : Bool) (buf pre rest : List Nat) :
    (4 ≤ buf.length → (new_paket buf).isValid = false →
       got_frame first buf
         = { processed := [],
             ignored := if first then none else some (buf.take (paketSize buf)),
             unknownBreak := false, firstFrame := false })
    ∧ (pre.length = 4 + byteAt pre 2 →
       is_valid_checksum pre pre.length = true →
       ((byteAt pre 0 = 0xff ∧ byteAt pre 1 = 0xff)
         ∨ (0x10 ≤ byteAt pre 0 ∧ byteAt pre 0 ≤ 0x13)) →
       got_frame first (pre ++ rest)
         = { got_frame false rest with
             processed := pre :: (got_frame false rest).processed }) := by
  constructor
  · intro h4 hval
    rw [got_frame]
    rw [dif_neg (by omega : ¬ (buf.length < 4))]
    simp only [hval]
    simp
  · intro hlen hval hstart
    have h4 : 4 ≤ pre.length := by omega
    have hlen2 : (pre ++ rest).length = pre.length + rest.length := by simp
    have hb2 : byteAt (pre ++ rest) 2 = byteAt pre 2 := by
      unfold byteAt
      rw [List.getD_append]
      omega
    have hps : paketSize (pre ++ rest) = pre.length := by
      unfold paketSize
      rw [hb2, hlen2]
      split <;> omega
    have htake : (pre ++ rest).take pre.length = pre := List.take_left pre rest
    have hdrop : (pre ++ rest).drop pre.length = rest := List.drop_left pre rest
    have htake1 : (pre ++ rest).take (pre.length - 1) = pre.take (pre.length - 1) := by
      rw [List.take_append_of_le_length]
      omega
    have hlast : byteAt (pre ++ rest) (pre.length - 1) = byteAt pre (pre.length - 1) := by
      unfold byteAt
      rw [List.getD_append]
      omega
    have hvalc : is_valid_checksum (pre ++ rest) (paketSize (pre ++ rest)) = true := by
      rw [hps]
      unfold is_valid_checksum at hval ⊢
      rw [htake1, hlast]
      exact hval
    have hnp : (new_paket (pre ++ rest)).isValid = true := by
      unfold new_paket
      rw [if_pos (by omega : 4 ≤ (pre ++ rest).length)]
      exact hvalc
    have hb0 : byteAt (pre ++ rest) 0 = byteAt pre 0 := by
      unfold byteAt
      rw [List.getD_append]
      omega
    have hb1 : byteAt (pre ++ rest) 1 = byteAt pre 1 := by
      unfold byteAt
      rw [List.getD_append]
      omega
    have hnotbreak : ¬ ((new_paket (pre ++ rest)).is_start_status = false
        ∧ (new_paket (pre ++ rest)).is_start_addr = false) := by
      unfold Paket.is_start_status Paket.is_start_addr
      unfold new_paket
      rw [if_pos (by omega : 4 ≤ (pre ++ rest).length)]
      simp only [hvalc]
      simp only [hb0, hb1]
      rcases hstart with ⟨hs0, hs1⟩ | ⟨ha0, ha1⟩
      · simp [hs0, hs1]
      · simp [ha0, ha1]
    rw [got_frame]
    rw [dif_neg (by omega : ¬ ((pre ++ rest).length < 4))]
    simp only [hnp]
    rw [if_neg (by simp : ¬ ((true : Bool) = false))]
    rw [if_neg hnotbreak]
    rw [hps, htake, hdrop]

/-- Witness for C9: a fan no-change report with a corrupted checksum
(`11 01 03 35 aa bb 09`) is surfaced and stops the call, both alone and
when preceded by a valid device-0x13 ping in the same buffer. -/
theorem invalid_frame_stops_processing_witness :
    (got_frame false [0x11, 1, 3, 0x35, 0xaa, 0xbb, 9]).processed = []
    ∧ (got_frame false [0x11, 1, 3, 0x35, 0xaa, 0xbb, 9]).ignored
        = some [0x11, 1, 3, 0x35, 0xaa, 0xbb, 9]
    ∧ got_frame false ([0x13, 0, 0, 0x14] ++ [0x11, 1, 3, 0x35, 0xaa, 0xbb, 9])
        = { got_frame false [0x11, 1, 3, 0x35, 0xaa, 0xbb, 9] with
            processed := [0x13, 0, 0, 0x14]
              :: (got_frame false [0x11, 1, 3, 0x35, 0xaa, 0xbb, 9]).processed } := by
  have h1 := (invalid_frame_stops_processing false
      [0x11, 1, 3, 0x35, 0xaa, 0xbb, 9] [] []).1 (by decide) (by decide)
  have h2 := (invalid_frame_stops_processing false
      ([0x13, 0, 0, 0x14] ++ [0x11, 1, 3, 0x35, 0xaa, 0xbb, 9])
      [0x13, 0, 0, 0x14] [0x11, 1, 3, 0x35, 0xaa, 0xbb, 9]).2
      (by decide) (by decide) (by decide)
  refine ⟨?_, ?_, h2⟩
  · rw [h1]
  · rw [h1]
    decide
